import Mathlib

/-!
# BarcodeCache: a shallow embedding of the cache core

This file embeds, in Lean 4, the core of the BarcodeCache service:

* the `BarcodeItem` record type exchanged between components;
* the `SQLShim` dialect layer (`InitProcedures`, the canonical SQL
  templates `rawSetup` / `rawLookup` / `rawInsert`, and the placeholder
  rewriter `varReplace`);
* the `SQLShim.Lookup` / `SQLShim.Store` storage operations, running
  against a functional model of the one-table database whose semantics
  follow the compiled SQL statements (a `SELECT … WHERE barcode = key`
  lookup and an `INSERT … WHERE NOT EXISTS` conditional insert);
* the per-engine server wrappers (`SQLiteServer.Lookup` etc.), which turn
  a storage error into a fatal process abort via `boom`;
* the HTTP-facing coordinator `barcodeHandler`, which checks the local
  server, falls back to the remote server on a miss, and writes a remote
  answer back into the local cache.

Fatal process aborts (`log.Fatalln` / `boom`) are modelled as explicit
`fatal` outcome constructors; Go `error` returns are modelled as explicit
`err` constructors; Go `nil` pointers are modelled with `Option`.
-/

set_option autoImplicit false
set_option maxRecDepth 8192

namespace BarcodeCache

/-- The barcode record: key plus three opaque string attributes. -/
structure BarcodeItem where
  Barcode : String
  ISBN : String
  Author : String
  Title : String
deriving Repr, DecidableEq

/-- One row of the `barcodes` table (the engine-assigned integer primary
key is never read back by the code, so it is omitted from the model). -/
structure Row where
  barcode : String
  isbn : String
  author : String
  title : String
deriving Repr, DecidableEq

/-- The three compiled SQL procedure strings held by `SQLShim`
(`setup`, `lookup`, `insert`). -/
structure ShimStrings where
  setup : String
  lookup : String
  insert : String
deriving Repr, DecidableEq

/-- Outcome of `SQLShim.InitProcedures`: a fatal abort (`log.Fatalln`),
a returned Go `error`, or success. -/
inductive InitResult where
  | fatal (msg : String)
  | err (msg : String)
  | ok
deriving Repr, DecidableEq

/-- The canonical create-table template (`rawSetup` in `SQL.go`); its
single `%s` hole receives the per-dialect primary-key type, modelled here
as an explicit string function standing for `fmt.Sprintf`. -/
def rawSetupFmt (idInfo : String) : String :=
  "CREATE TABLE IF NOT EXISTS barcodes(\n\t\tid      " ++ idInfo ++
  "          PRIMARY KEY,\n\t\tbarcode varchar(50) NOT NULL UNIQUE,\n\t\tisbn    text        NOT NULL,\n\t\tauthor  text        NOT NULL,\n\t\ttitle   text        NOT NULL);"

/-- The canonical lookup template (`rawLookup` in `SQL.go`). -/
def rawLookup : String :=
  "SELECT isbn,author,title FROM barcodes WHERE barcode=(?);"

/-- The canonical insert-if-absent template (`rawInsert` in `SQL.go`). -/
def rawInsert : String :=
  "INSERT INTO barcodes(barcode,isbn,author,title)\n\t\tSELECT ?,?,?,?\n\t\tWHERE NOT EXISTS (SELECT * FROM barcodes WHERE barcode=(?));"

/-- Character-level worker for `varReplace`: each `?` becomes
`varPrefix ++ toString varIndex` with `varIndex` incremented left to
right; every other character is copied unchanged. -/
def varReplaceAux (varPrefix : String) : List Char → Nat → String → String
  | [], _, acc => acc
  | c :: rest, varIndex, acc =>
    if c = '?' then
      varReplaceAux varPrefix rest (varIndex + 1)
        (acc ++ varPrefix ++ toString varIndex)
    else
      varReplaceAux varPrefix rest varIndex (acc ++ c.toString)

/-- `varReplace` from `SQLShim.InitProcedures`: rewrites every `?` in
`src` to a positionally numbered marker starting at 1 (the
`strings.Builder` writes cannot fail, so the function is total). -/
def varReplace (src : String) (varPrefix : String) : String :=
  varReplaceAux varPrefix src.data 1 ""

/-- `strings.ToLower` on ASCII identifiers, modelled character-wise (a
structurally recursive equivalent of `String.toLower`, so that the
kernel can evaluate it). -/
def strToLower (s : String) : String :=
  ⟨s.data.map Char.toLower⟩

/-- `SQLShim.InitProcedures`: selects the per-dialect primary-key type
and placeholder prefix, then stores the compiled procedure strings.
An empty `dbType` is a fatal abort; an unknown `dbType` returns an error
and leaves the stored strings untouched. The returned `ShimStrings` is
the post-call state of the shim. -/
def InitProcedures (s : ShimStrings) (dbType : String) :
    ShimStrings × InitResult :=
  if dbType = "" then
    (s, .fatal "Database type is empty!")
  else
    -- `idInfo` defaults to the Postgres identity column; `varPrefix`
    -- defaults to the empty string (keep the generic `?` marker).
    let choice : Option (String × String) :=
      if strToLower dbType = "mysql" then
        some ("int AUTO_INCREMENT", "")
      else if strToLower dbType = "sqlite" then
        some ("integer", "")
      else if strToLower dbType = "postgres" then
        some ("int GENERATED BY DEFAULT AS IDENTITY", "$")
      else
        none
    match choice with
    | none => (s, .err ("Unknown database type " ++ dbType))
    | some (idInfo, varPrefix) =>
      let setup := rawSetupFmt idInfo
      if varPrefix = "" then
        ({ setup := setup, lookup := rawLookup, insert := rawInsert }, .ok)
      else
        ({ setup := setup,
           lookup := varReplace rawLookup varPrefix,
           insert := varReplace rawInsert varPrefix }, .ok)

/-- Scanner for positional markers: collects, left to right, the number
following each `$` in the string (used to check the Postgres rewrite). -/
def markersOfAux : List Char → Option Nat → List Nat → List Nat
  | [], cur, acc =>
    match cur with
    | some n => acc ++ [n]
    | none => acc
  | c :: rest, cur, acc =>
    match cur with
    | some n =>
      if c.isDigit then
        markersOfAux rest (some (n * 10 + (c.toNat - 48))) acc
      else if c = '$' then
        markersOfAux rest (some 0) (acc ++ [n])
      else
        markersOfAux rest none (acc ++ [n])
    | none =>
      if c = '$' then markersOfAux rest (some 0) acc
      else markersOfAux rest none acc

/-- The list of `$n` marker numbers occurring in a statement, left to
right. -/
def markersOf (s : String) : List Nat :=
  markersOfAux s.data none []

/-- `true` when the statement still contains a generic `?` placeholder
marker. -/
def hasGenericMarker (s : String) : Bool :=
  s.data.any (fun c => c = '?')

/-! ## The storage layer

`SQLShim.Lookup` and `SQLShim.Store` issue the compiled statements
against a live `*sql.DB`. The database is modelled functionally: a
`DBState` is the `barcodes` table (a list of rows) plus two flags that
model a failing driver (a query error during lookup, an execution error
during insert). The semantics of the issued statements follow the
templates: the lookup statement returns the rows whose `barcode` column
equals the bound key, and the insert statement appends its row only when
no existing row shares the key. A `nil` `*sql.DB` is `Option.none`. -/

/-- The modelled database connection state: current table contents plus
driver-failure flags. -/
structure DBState where
  table : List Row
  queryFails : Bool
  execFails : Bool
deriving Repr, DecidableEq

/-- Result of `SQLShim.Lookup`: fatal abort, returned query error,
a found record, or absent (`nil, nil` in Go). -/
inductive LookupResult where
  | fatal (msg : String)
  | err (msg : String)
  | found (item : BarcodeItem)
  | absent
deriving Repr, DecidableEq

/-- `true` exactly on the `fatal` constructor. -/
def LookupResult.isFatal : LookupResult → Bool
  | .fatal _ => true
  | _ => false

/-- Result of `SQLShim.Store`: fatal abort, returned execution error, or
success. -/
inductive StoreResult where
  | fatal (msg : String)
  | err (msg : String)
  | ok
deriving Repr, DecidableEq

/-- `true` exactly on the `fatal` constructor. -/
def StoreResult.isFatal : StoreResult → Bool
  | .fatal _ => true
  | _ => false

/-- `SQLShim.Lookup`: aborts on a nil database or empty barcode, returns
the query error when the driver fails, and otherwise maps the first row
matching the key to a `BarcodeItem` whose `Barcode` field is the query
argument and whose remaining fields are scanned from the row
(`isbn`, `author`, `title` columns, per the compiled lookup statement). -/
def SQLShim.Lookup (db : Option DBState) (barcode : String) : LookupResult :=
  match db with
  | none => .fatal "Database is nil!"
  | some st =>
    if barcode = "" then .fatal "Empty barcode!"
    else if st.queryFails then .err "query failed"
    else
      match st.table.filter (fun r => r.barcode = barcode) with
      | [] => .absent
      | r :: _ =>
        .found { Barcode := barcode, ISBN := r.isbn,
                 Author := r.author, Title := r.title }

/-- Semantics of the compiled insert-if-absent statement: append the
item's row only when no existing row already holds its barcode. -/
def insertIfAbsent (table : List Row) (item : BarcodeItem) : List Row :=
  if table.any (fun r => r.barcode = item.Barcode) then table
  else table ++ [⟨item.Barcode, item.ISBN, item.Author, item.Title⟩]

/-- `SQLShim.Store`: aborts on a nil database, nil item or empty
barcode; returns the execution error when the driver fails; otherwise
executes the insert-if-absent statement. Returns the post-call database
state alongside the Go result. -/
def SQLShim.Store (db : Option DBState) (item : Option BarcodeItem) :
    Option DBState × StoreResult :=
  match db with
  | none => (none, .fatal "Database is nil!")
  | some st =>
    match item with
    | none => (some st, .fatal "Item is nil!")
    | some it =>
      if it.Barcode = "" then (some st, .fatal "Barcode is empty!")
      else if st.execFails then (some st, .err "exec failed")
      else (some { st with table := insertIfAbsent st.table it }, .ok)

/-! ## The per-engine server wrappers

`SQLiteServer.Lookup` / `.Store` (and the identical Postgres and MySQL
wrappers) call the shim and pass any returned error to
`boom(err, …)`, which is `log.Fatalln` — a fatal process abort. So at
the `BarcodeServerInterface` level a storage error is fatal, never an
error value. -/

/-- Result of a server-wrapper lookup (`SQLiteServer.Lookup` etc.): the
Go signature returns only `*BarcodeItem`, so the outcomes are a fatal
abort, a found record, or absent (`nil`). -/
inductive ServerLookup where
  | fatal (msg : String)
  | found (item : BarcodeItem)
  | absent
deriving Repr, DecidableEq

/-- Result of a server-wrapper store (`SQLiteServer.Store` etc.): the Go
signature returns nothing, so the outcomes are a fatal abort or silent
success. -/
inductive ServerStore where
  | fatal (msg : String)
  | ok
deriving Repr, DecidableEq

/-- `SQLiteServer.Lookup` (the Postgres and MySQL wrappers are
identical): any error from the shim becomes `boom("Unable to lookup
item")`, a fatal abort. -/
def SQLiteServer.Lookup (db : Option DBState) (barcode : String) :
    ServerLookup :=
  match SQLShim.Lookup db barcode with
  | .fatal m => .fatal m
  | .err _ => .fatal "Unable to lookup item"
  | .found it => .found it
  | .absent => .absent

/-- `SQLiteServer.Store` (the Postgres and MySQL wrappers are
identical): any error from the shim becomes `boom("Unable to store
item")`, a fatal abort. -/
def SQLiteServer.Store (db : Option DBState) (item : BarcodeItem) :
    ServerStore :=
  match (SQLShim.Store db (some item)).2 with
  | .fatal m => .fatal m
  | .err _ => .fatal "Unable to store item"
  | .ok => .ok

/-! ## The coordinator (`barcodeHandler`)

The handler receives the barcode path variable and two
`BarcodeServerInterface` values (local and remote, either possibly
`nil`). An interface value is modelled by its observable behaviour on
this one request: a lookup function and a store function. The remote
implementations (`AlmaServer`, `RandomServer`) never abort and degrade
network failures to `nil`, so the remote is modelled as
`String → Option BarcodeItem`. The handler's outcome and the number of
remote lookups performed are both returned. -/

/-- The observable behaviour of a local `BarcodeServerInterface` value
for a single request. -/
structure ServerModel where
  lookup : String → ServerLookup
  store : BarcodeItem → ServerStore

/-- The local server backed by the SQL shim over a modelled database
state. -/
def sqlServerModel (db : Option DBState) : ServerModel :=
  { lookup := fun bc => SQLiteServer.Lookup db bc
    store := fun it => SQLiteServer.Store db it }

/-- Observable outcome of `barcodeHandler` for one request. -/
inductive Outcome where
  | answered (item : BarcodeItem)
  | notFound
  | earlyReturn
  | fatal (msg : String)
deriving Repr, DecidableEq

/-- `barcodeHandler`: empty barcode or nil local server returns
immediately with an empty body; otherwise look up locally; on a local
`nil` result consult the remote server when one is configured, and store
a non-`nil` remote result back into the local cache; encode the result
when one exists. The second component counts remote lookups. -/
def barcodeHandler (localServer : Option ServerModel)
    (remoteServer : Option (String → Option BarcodeItem))
    (barcode : String) : Outcome × Nat :=
  if barcode = "" then (.earlyReturn, 0)
  else
    match localServer with
    | none => (.earlyReturn, 0)
    | some ls =>
      match ls.lookup barcode with
      | .fatal m => (.fatal m, 0)
      | .found result => (.answered result, 0)
      | .absent =>
        match remoteServer with
        | none => (.notFound, 0)
        | some remote =>
          match remote barcode with
          | none => (.notFound, 1)
          | some result =>
            match ls.store result with
            | .fatal m => (.fatal m, 1)
            | .ok => (.answered result, 1)

/-- `RandomServer.Lookup`: builds an item whose `Barcode` is the query
argument and whose attributes are derived from a pseudo-random draw,
modelled by an explicit seed standing for the generator state of
`rand.Intn(1000000)`. -/
def RandomServer.Lookup (seed : Nat) (barcode : String) : BarcodeItem :=
  let r := seed % 1000000
  { Barcode := barcode
    ISBN := "ISBN" ++ toString r
    Author := "Author" ++ toString r
    Title := "Title" ++ toString r }

/-! ## Auxiliary observers and concrete fixtures -/

/-- `true` exactly on the `err` constructor (a returned Go `error`, as
opposed to a fatal abort or success). -/
def InitResult.isErr : InitResult → Bool
  | .err _ => true
  | _ => false

/-- The table held by a possibly-nil database state. -/
def tableOf : Option DBState → List Row
  | none => []
  | some st => st.table

/-- The table row written for a given item (the four bound columns of
the insert statement). -/
def rowOf (item : BarcodeItem) : Row :=
  { barcode := item.Barcode, isbn := item.ISBN, author := item.Author,
    title := item.Title }

/-- The record of the spec's concrete scenario for key `"666"`. -/
def item666 : BarcodeItem :=
  { Barcode := "666", ISBN := "ISBN1", Author := "Author1", Title := "Title1" }

/-- The stored row for `item666`. -/
def row666 : Row :=
  { barcode := "666", isbn := "ISBN1", author := "Author1", title := "Title1" }

/-- A remote stub that answers every key with `item666`. -/
def remote666 : String → Option BarcodeItem :=
  fun _ => some item666

/-- An empty, healthy database. -/
def dbEmpty : DBState := { table := [], queryFails := false, execFails := false }

/-- A healthy database already holding the row for `"666"`. -/
def dbHit : DBState := { table := [row666], queryFails := false, execFails := false }

/-- A database whose driver fails every lookup query. -/
def dbQueryFail : DBState := { table := [], queryFails := true, execFails := false }

/-- A database whose driver fails every insert execution. -/
def dbExecFail : DBState := { table := [], queryFails := false, execFails := true }

/-! ## C6: dialect compilation resolves placeholders -/

/-- **C6.** For each of the three supported backend identifiers,
`InitProcedures` succeeds and produces statements with no unresolved
generic `?` marker remaining in the Postgres case: for `postgres` every
`?` is rewritten to a `$n` marker numbered strictly increasing left to
right starting at 1 (`[1]` for the lookup, `[1,2,3,4,5]` for the
insert, no `?` left), while for `mysql` and `sqlite` the lookup and
insert statements are exactly the canonical templates, character for
character. -/
theorem c6_dialect_compile_markers_resolved :
    ∀ s : ShimStrings,
      (InitProcedures s "mysql").2 = .ok ∧
      (InitProcedures s "mysql").1.lookup = rawLookup ∧
      (InitProcedures s "mysql").1.insert = rawInsert ∧
      (InitProcedures s "sqlite").2 = .ok ∧
      (InitProcedures s "sqlite").1.lookup = rawLookup ∧
      (InitProcedures s "sqlite").1.insert = rawInsert ∧
      (InitProcedures s "postgres").2 = .ok ∧
      (InitProcedures s "postgres").1.lookup =
        "SELECT isbn,author,title FROM barcodes WHERE barcode=($1);" ∧
      (InitProcedures s "postgres").1.insert =
        "INSERT INTO barcodes(barcode,isbn,author,title)\n\t\tSELECT $1,$2,$3,$4\n\t\tWHERE NOT EXISTS (SELECT * FROM barcodes WHERE barcode=($5));" ∧
      hasGenericMarker (InitProcedures s "postgres").1.lookup = false ∧
      hasGenericMarker (InitProcedures s "postgres").1.insert = false ∧
      markersOf (InitProcedures s "postgres").1.lookup = [1] ∧
      markersOf (InitProcedures s "postgres").1.insert = [1, 2, 3, 4, 5] :=
  fun _ =>
    ⟨rfl, rfl, rfl, rfl, rfl, rfl, rfl, rfl, rfl, rfl, rfl, rfl, rfl⟩

/-! ## C7: unknown backend identifiers -/

/-- **C7, counterexample.** The empty identifier is not in the closed
enumeration, yet `InitProcedures` does not fail with the
unsupported-dialect error: it aborts fatally through a different path
(`log.Fatalln "Database type is empty!"`), so the claim's "fails with an
UnsupportedDialect error" does not hold for every identifier outside the
enumeration. -/
theorem c7_compile_empty_id_not_error_cex :
    "" ∉ (["mysql", "postgres", "sqlite"] : List String) ∧
    (InitProcedures ⟨"a", "b", "c"⟩ "").2.isErr = false ∧
    InitProcedures ⟨"a", "b", "c"⟩ "" =
      (⟨"a", "b", "c"⟩, .fatal "Database type is empty!") := by
  decide

/-- **C7, amended.** For every non-empty identifier whose lowercase form
is outside the closed enumeration, `InitProcedures` returns the
unknown-database-type error and leaves the shim's compiled statements
exactly as they were: no partial profile is produced. -/
theorem c7_compile_unknown_id_error_no_partial_profile :
    ∀ (s : ShimStrings) (dbType : String),
      dbType ≠ "" →
      strToLower dbType ∉ (["mysql", "sqlite", "postgres"] : List String) →
      InitProcedures s dbType =
        (s, .err ("Unknown database type " ++ dbType)) := by
  intro s dbType h0 hmem
  have h1 : ¬strToLower dbType = "mysql" := fun h => hmem (by simp [h])
  have h2 : ¬strToLower dbType = "sqlite" := fun h => hmem (by simp [h])
  have h3 : ¬strToLower dbType = "postgres" := fun h => hmem (by simp [h])
  simp [InitProcedures, h0, h1, h2, h3]

/-- **C7, witness.** `oracle` is rejected with the unknown-database-type
error and the pre-existing statements are untouched. -/
theorem c7_compile_unknown_id_witness :
    InitProcedures ⟨"a", "b", "c"⟩ "oracle" =
      (⟨"a", "b", "c"⟩, .err "Unknown database type oracle") :=
  c7_compile_unknown_id_error_no_partial_profile ⟨"a", "b", "c"⟩ "oracle"
    (by decide) (by decide)

/-! ## C9: compilation is deterministic -/

/-- **C9.** `InitProcedures` is a pure function of the backend
identifier: for any identifier and any two prior shim states, the two
runs produce the same outcome (fatal / error / ok), and on success the
same three compiled statements — the result does not depend on I/O or
on the pre-existing state. -/
theorem c9_compile_deterministic :
    ∀ (dbType : String) (s₁ s₂ : ShimStrings),
      (InitProcedures s₁ dbType).2 = (InitProcedures s₂ dbType).2 ∧
      ((InitProcedures s₁ dbType).2 = .ok →
        (InitProcedures s₁ dbType).1 = (InitProcedures s₂ dbType).1) := by
  intro dbType s₁ s₂
  by_cases h0 : dbType = ""
  · simp [InitProcedures, h0]
  · by_cases h1 : strToLower dbType = "mysql"
    · simp [InitProcedures, h0, h1]
    · by_cases h2 : strToLower dbType = "sqlite"
      · simp [InitProcedures, h0, h1, h2]
      · by_cases h3 : strToLower dbType = "postgres"
        · simp [InitProcedures, h0, h1, h2, h3]
        · simp [InitProcedures, h0, h1, h2, h3]

/-- **C9, witness.** Two runs on `postgres` from different prior states
agree on the outcome and on the compiled statements. -/
theorem c9_compile_deterministic_witness :
    (InitProcedures ⟨"a", "b", "c"⟩ "postgres").2 =
      (InitProcedures ⟨"x", "y", "z"⟩ "postgres").2 ∧
    (InitProcedures ⟨"a", "b", "c"⟩ "postgres").1 =
      (InitProcedures ⟨"x", "y", "z"⟩ "postgres").1 :=
  ⟨(c9_compile_deterministic "postgres" ⟨"a", "b", "c"⟩ ⟨"x", "y", "z"⟩).1,
   (c9_compile_deterministic "postgres" ⟨"a", "b", "c"⟩ ⟨"x", "y", "z"⟩).2
     (by decide)⟩

/-! ## C8: empty keys are fatal contract violations -/

/-- **C8.** A lookup or store with an empty key on the storage shim is a
fatal process abort for every database state: it never silently
succeeds, never silently no-ops and never returns a soft "not found" —
the outcome is always the `fatal` constructor. -/
theorem c8_empty_key_fatal :
    (∀ db : Option DBState, (SQLShim.Lookup db "").isFatal = true) ∧
    (∀ (db : Option DBState) (item : BarcodeItem), item.Barcode = "" →
      ((SQLShim.Store db (some item)).2).isFatal = true) := by
  constructor
  · intro db
    cases db with
    | none => rfl
    | some st => simp [SQLShim.Lookup, LookupResult.isFatal]
  · intro db item h
    cases db with
    | none => rfl
    | some st => simp [SQLShim.Store, h, StoreResult.isFatal]

/-- **C8, witness.** On a concrete healthy database, the empty-key
lookup and the empty-key store both abort. -/
theorem c8_empty_key_fatal_witness :
    (SQLShim.Lookup (some dbEmpty) "").isFatal = true ∧
    ((SQLShim.Store (some dbEmpty)
        (some ⟨"", "ISBN1", "Author1", "Title1"⟩)).2).isFatal = true :=
  ⟨c8_empty_key_fatal.1 (some dbEmpty),
   c8_empty_key_fatal.2 (some dbEmpty) ⟨"", "ISBN1", "Author1", "Title1"⟩ rfl⟩

/-! ## C5: insert-if-absent semantics of Store -/

/-- **C5.** Starting from any healthy database holding no row for key
`K`, `Store(R)` followed by `Store(R')` — both records keyed `K` —
succeeds and leaves exactly one row for `K`, carrying the original
attributes of `R`; when the attributes differ the row is not the one
`R'` would have produced (the second store is a no-op). -/
theorem c5_store_insert_if_absent :
    ∀ (st : DBState) (R Rp : BarcodeItem) (K : String),
      R.Barcode = K → Rp.Barcode = K → K ≠ "" → st.execFails = false →
      (∀ r ∈ st.table, r.barcode ≠ K) →
      (SQLShim.Store (SQLShim.Store (some st) (some R)).1 (some Rp)).2 = .ok ∧
      (tableOf (SQLShim.Store (SQLShim.Store (some st) (some R)).1
          (some Rp)).1).filter (fun r => r.barcode = K) =
        [{ barcode := K, isbn := R.ISBN, author := R.Author,
           title := R.Title }] ∧
      ((R.ISBN, R.Author, R.Title) ≠ (Rp.ISBN, Rp.Author, Rp.Title) →
        (tableOf (SQLShim.Store (SQLShim.Store (some st) (some R)).1
            (some Rp)).1).filter (fun r => r.barcode = K) ≠
          [{ barcode := K, isbn := Rp.ISBN, author := Rp.Author,
             title := Rp.Title }]) := by
  intro st R Rp K hR hRp hK hexec habs
  subst hR
  have hK' : ¬ R.Barcode = "" := hK
  have hRp' : ¬ Rp.Barcode = "" := by rw [hRp]; exact hK
  have hany1 : (st.table.any fun r => r.barcode = R.Barcode) = false := by
    rw [List.any_eq_false]
    intro r hr
    simp [habs r hr]
  have h1a : (SQLShim.Store (some st) (some R)).1 =
      some { st with table := st.table ++ [rowOf R] } := by
    simp [SQLShim.Store, hK', hexec, insertIfAbsent, hany1, rowOf]
  have hany2 : ((st.table ++ [rowOf R]).any
      fun r => r.barcode = Rp.Barcode) = true := by
    simp [hRp, rowOf]
  have hkey : SQLShim.Store (SQLShim.Store (some st) (some R)).1 (some Rp) =
      (some { st with table := st.table ++ [rowOf R] }, .ok) := by
    rw [h1a]
    simp [SQLShim.Store, hRp', hexec, insertIfAbsent, hany2]
  have hfil : ((st.table ++ [rowOf R]).filter
        (fun r => r.barcode = R.Barcode)) = [rowOf R] := by
    rw [List.filter_append]
    have hnil : st.table.filter (fun r => r.barcode = R.Barcode) = [] := by
      rw [List.filter_eq_nil_iff]
      intro r hr
      simp [habs r hr]
    rw [hnil]
    simp [rowOf]
  rw [hkey]
  refine ⟨rfl, hfil, ?_⟩
  intro hdiff h'
  have h'' := hfil.symm.trans h'
  simp only [rowOf, List.cons.injEq, and_true, Row.mk.injEq, true_and] at h''
  exact hdiff (by simp [h''.1, h''.2.1, h''.2.2])

/-- **C5, witness.** Storing `("666", ISBN1, Author1, Title1)` and then
`("666", ISBN2, Author2, Title2)` into an empty database succeeds and
leaves exactly the original row for `"666"`. -/
theorem c5_store_insert_if_absent_witness :
    (SQLShim.Store (SQLShim.Store (some dbEmpty) (some item666)).1
      (some ⟨"666", "ISBN2", "Author2", "Title2"⟩)).2 = .ok ∧
    (tableOf (SQLShim.Store (SQLShim.Store (some dbEmpty) (some item666)).1
        (some ⟨"666", "ISBN2", "Author2", "Title2"⟩)).1).filter
      (fun r => r.barcode = "666") =
      [{ barcode := "666", isbn := item666.ISBN, author := item666.Author,
         title := item666.Title }] :=
  ⟨(c5_store_insert_if_absent dbEmpty item666
      ⟨"666", "ISBN2", "Author2", "Title2"⟩ "666" rfl rfl (by decide) rfl
      (by decide)).1,
   (c5_store_insert_if_absent dbEmpty item666
      ⟨"666", "ISBN2", "Author2", "Title2"⟩ "666" rfl rfl (by decide) rfl
      (by decide)).2.1⟩

/-! ## C10: the returned record's key is the queried key -/

/-- **C10.** Whenever a storage-shim lookup returns a record, that
record's `Barcode` field is the query argument, and its three attribute
fields are exactly those of the first matching table row (only the
`isbn`, `author`, `title` columns are read from the row); likewise the
random stub always echoes the queried key. -/
theorem c10_lookup_key_from_query :
    (∀ (db : Option DBState) (barcode : String) (item : BarcodeItem),
      SQLShim.Lookup db barcode = .found item →
      item.Barcode = barcode ∧
      ((tableOf db).filter (fun r => r.barcode = barcode)).head? =
        some { barcode := barcode, isbn := item.ISBN,
               author := item.Author, title := item.Title }) ∧
    (∀ (seed : Nat) (barcode : String),
      (RandomServer.Lookup seed barcode).Barcode = barcode) := by
  constructor
  · intro db bc it h
    cases db with
    | none => exact absurd h (by simp [SQLShim.Lookup])
    | some st =>
      simp only [SQLShim.Lookup] at h
      by_cases h0 : bc = ""
      · simp [h0] at h
      · rw [if_neg h0] at h
        by_cases hq : st.queryFails = true
        · simp [hq] at h
        · rw [if_neg hq] at h
          cases hfil : st.table.filter (fun r => r.barcode = bc) with
          | nil => rw [hfil] at h; exact absurd h (by simp)
          | cons r rest =>
            rw [hfil] at h
            simp only [LookupResult.found.injEq] at h
            subst h
            have hrb : r.barcode = bc := by
              have hmem : r ∈ st.table.filter (fun r => r.barcode = bc) := by
                rw [hfil]; exact List.mem_cons_self r rest
              simpa using (List.mem_filter.mp hmem).2
            refine ⟨rfl, ?_⟩
            simp only [tableOf, hfil, List.head?_cons, Option.some.injEq]
            simp [← hrb]
  · intro seed bc
    rfl

/-- **C10, witness.** Looking `"666"` up in a database holding its row
returns a record keyed `"666"` whose attributes are the row's. -/
theorem c10_lookup_key_from_query_witness :
    (item666.Barcode = "666" ∧
      ((tableOf (some dbHit)).filter (fun r => r.barcode = "666")).head? =
        some { barcode := "666", isbn := item666.ISBN,
               author := item666.Author, title := item666.Title }) ∧
    (RandomServer.Lookup 7 "666").Barcode = "666" :=
  ⟨c10_lookup_key_from_query.1 (some dbHit) "666" item666 (by decide),
   c10_lookup_key_from_query.2 7 "666"⟩

/-! ## C1: the remote source is contacted at most once, only on a miss -/

/-- **C1.** Per request, `barcodeHandler` contacts the remote source at
most once; for every non-empty key whose local lookup returns a record,
the remote source is contacted zero times and that record is answered;
and whenever the remote source was contacted at all, the local lookup
had returned no record (absent). -/
theorem c1_remote_contact_at_most_once :
    (∀ (localServer : Option ServerModel)
       (remoteServer : Option (String → Option BarcodeItem))
       (barcode : String),
      (barcodeHandler localServer remoteServer barcode).2 ≤ 1) ∧
    (∀ (ls : ServerModel)
       (remoteServer : Option (String → Option BarcodeItem))
       (barcode : String) (item : BarcodeItem),
      barcode ≠ "" → ls.lookup barcode = .found item →
      barcodeHandler (some ls) remoteServer barcode = (.answered item, 0)) ∧
    (∀ (ls : ServerModel)
       (remoteServer : Option (String → Option BarcodeItem))
       (barcode : String),
      1 ≤ (barcodeHandler (some ls) remoteServer barcode).2 →
      ls.lookup barcode = .absent) := by
  refine ⟨?_, ?_, ?_⟩
  · intro l r bc
    by_cases hbc : bc = ""
    · simp [barcodeHandler, hbc]
    · cases l with
      | none => simp [barcodeHandler, hbc]
      | some ls =>
        cases hl : ls.lookup bc with
        | fatal m => simp [barcodeHandler, hbc, hl]
        | found it => simp [barcodeHandler, hbc, hl]
        | absent =>
          cases r with
          | none => simp [barcodeHandler, hbc, hl]
          | some rf =>
            cases hr : rf bc with
            | none => simp [barcodeHandler, hbc, hl, hr]
            | some it =>
              cases hs : ls.store it with
              | fatal m => simp [barcodeHandler, hbc, hl, hr, hs]
              | ok => simp [barcodeHandler, hbc, hl, hr, hs]
  · intro ls r bc it hbc hl
    simp [barcodeHandler, hbc, hl]
  · intro ls r bc h
    by_cases hbc : bc = ""
    · simp [barcodeHandler, hbc] at h
    · cases hl : ls.lookup bc with
      | fatal m => simp [barcodeHandler, hbc, hl] at h
      | found it => simp [barcodeHandler, hbc, hl] at h
      | absent => rfl

/-- **C1, witness.** With the row for `"666"` cached locally, the
handler answers it with zero remote calls; and on the concrete request
that does reach the remote, the local lookup had returned absent. -/
theorem c1_remote_contact_at_most_once_witness :
    (barcodeHandler (some (sqlServerModel (some dbHit))) (some remote666)
      "666").2 ≤ 1 ∧
    barcodeHandler (some (sqlServerModel (some dbHit))) (some remote666)
      "666" = (.answered item666, 0) ∧
    (sqlServerModel (some dbEmpty)).lookup "666" = .absent :=
  ⟨c1_remote_contact_at_most_once.1
     (some (sqlServerModel (some dbHit))) (some remote666) "666",
   c1_remote_contact_at_most_once.2.1
     (sqlServerModel (some dbHit)) (some remote666) "666" item666
     (by decide) (by decide),
   c1_remote_contact_at_most_once.2.2
     (sqlServerModel (some dbEmpty)) (some remote666) "666" (by decide)⟩

/-! ## C2: write-through store failure -/

/-- **C2, counterexample.** Local lookup misses (empty table), the
remote returns the record, and the write-through store fails: the
handler's outcome is a fatal process abort (`boom("Unable to store
item")`), not the `answered` outcome the claim promises — the store
failure does prevent the record from being returned. -/
theorem c2_write_through_failure_cex :
    barcodeHandler (some (sqlServerModel (some dbExecFail)))
      (some remote666) "666" = (.fatal "Unable to store item", 1) ∧
    (barcodeHandler (some (sqlServerModel (some dbExecFail)))
      (some remote666) "666").1 ≠ .answered item666 := by
  decide

/-- **C2, amended.** When the local lookup misses, the remote lookup
returns a record, and the write-through store hits an execution error,
the SQL-backed local server aborts the process (`boom`), so the record
is not returned: the write-through is not best-effort in the code. -/
theorem c2_write_through_failure_fatal :
    ∀ (st : DBState) (remote : String → Option BarcodeItem)
      (barcode : String) (item : BarcodeItem),
      barcode ≠ "" →
      (sqlServerModel (some st)).lookup barcode = .absent →
      remote barcode = some item →
      item.Barcode ≠ "" →
      st.execFails = true →
      barcodeHandler (some (sqlServerModel (some st))) (some remote)
        barcode = (.fatal "Unable to store item", 1) := by
  intro st remote bc it hbc hl hr hib hexec
  have hl' : SQLiteServer.Lookup (some st) bc = .absent := hl
  simp [barcodeHandler, hbc, sqlServerModel, hl', hr,
    SQLiteServer.Store, SQLShim.Store, hib, hexec]

/-- **C2, witness.** The failure path evaluated on the concrete scenario
for key `"666"`. -/
theorem c2_write_through_failure_fatal_witness :
    barcodeHandler (some (sqlServerModel (some dbExecFail)))
      (some remote666) "666" = (.fatal "Unable to store item", 1) :=
  c2_write_through_failure_fatal dbExecFail remote666 "666" item666
    (by decide) (by decide) (by decide) (by decide) (by decide)

/-! ## C3: a storage lookup error is surfaced, but then fatal -/

/-- **C3, counterexample.** With a database whose lookup query fails,
the handler aborts fatally with zero remote calls: the coordinator does
not treat the storage failure as a local miss and does not fall through
to the remote source, contradicting the claim. -/
theorem c3_lookup_error_no_fallthrough_cex :
    barcodeHandler (some (sqlServerModel (some dbQueryFail)))
      (some remote666) "666" = (.fatal "Unable to lookup item", 0) ∧
    (barcodeHandler (some (sqlServerModel (some dbQueryFail)))
      (some remote666) "666").2 = 0 := by
  decide

/-- **C3, amended.** A query execution error during a shim lookup is
surfaced to the shim's caller as an explicit error value, distinct from
both "absent" and "found"; but the per-engine server wrapper turns that
error into a fatal process abort, and the coordinator therefore never
falls through to the remote source on a storage error (the request dies
with zero remote calls). -/
theorem c3_lookup_error_surfaced_then_fatal :
    (∀ (st : DBState) (barcode : String),
      barcode ≠ "" → st.queryFails = true →
      SQLShim.Lookup (some st) barcode = .err "query failed" ∧
      SQLShim.Lookup (some st) barcode ≠ .absent ∧
      ∀ item, SQLShim.Lookup (some st) barcode ≠ .found item) ∧
    (∀ (st : DBState) (barcode : String),
      barcode ≠ "" → st.queryFails = true →
      SQLiteServer.Lookup (some st) barcode =
        .fatal "Unable to lookup item") ∧
    (∀ (st : DBState) (remote : String → Option BarcodeItem)
       (barcode : String),
      barcode ≠ "" → st.queryFails = true →
      barcodeHandler (some (sqlServerModel (some st))) (some remote)
        barcode = (.fatal "Unable to lookup item", 0)) := by
  refine ⟨?_, ?_, ?_⟩
  · intro st bc hbc hq
    have he : SQLShim.Lookup (some st) bc = .err "query failed" := by
      simp [SQLShim.Lookup, hbc, hq]
    refine ⟨he, ?_, ?_⟩
    · rw [he]; simp
    · intro item; rw [he]; simp
  · intro st bc hbc hq
    simp [SQLiteServer.Lookup, SQLShim.Lookup, hbc, hq]
  · intro st remote bc hbc hq
    simp [barcodeHandler, hbc, sqlServerModel, SQLiteServer.Lookup,
      SQLShim.Lookup, hq]

/-- **C3, witness.** The three facts evaluated on a concrete failing
database and the key `"666"`. -/
theorem c3_lookup_error_surfaced_then_fatal_witness :
    (SQLShim.Lookup (some dbQueryFail) "666" = .err "query failed" ∧
      SQLShim.Lookup (some dbQueryFail) "666" ≠ .absent ∧
      ∀ item, SQLShim.Lookup (some dbQueryFail) "666" ≠ .found item) ∧
    SQLiteServer.Lookup (some dbQueryFail) "666" =
      .fatal "Unable to lookup item" ∧
    barcodeHandler (some (sqlServerModel (some dbQueryFail)))
      (some remote666) "666" = (.fatal "Unable to lookup item", 0) :=
  ⟨c3_lookup_error_surfaced_then_fatal.1 dbQueryFail "666"
     (by decide) (by decide),
   c3_lookup_error_surfaced_then_fatal.2.1 dbQueryFail "666"
     (by decide) (by decide),
   c3_lookup_error_surfaced_then_fatal.2.2 dbQueryFail remote666 "666"
     (by decide) (by decide)⟩

/-! ## C4: a nil local backend -/

/-- **C4, counterexample.** With no local backend configured and a
remote source that would answer `"666"`, the handler returns immediately
with an empty response and zero remote calls — it does not treat the
missing local backend as a miss and does not attempt the remote lookup,
contradicting the claim. -/
theorem c4_nil_local_backend_cex :
    barcodeHandler none (some remote666) "666" = (.earlyReturn, 0) := by
  decide

/-- **C4, amended.** Whenever the local backend is unset (`nil`), the
handler returns immediately with an empty response for every key and
every remote configuration: the remote source is never contacted. -/
theorem c4_nil_local_backend_returns_immediately :
    ∀ (remoteServer : Option (String → Option BarcodeItem))
      (barcode : String),
      barcodeHandler none remoteServer barcode = (.earlyReturn, 0) := by
  intro r bc
  by_cases hbc : bc = "" <;> simp [barcodeHandler, hbc]

end BarcodeCache
